import Mathlib

/-!
Verification development for qywx-dumper.

The repository dumps a corporate directory (agents, departments, tags) to
disk: src/util.rs holds filename sanitization, src/api/data.rs the response
schemas, src/api/mod.rs the token-gated HTTP client, and src/main.rs the
credential resolution and the three concurrent collection jobs.

This file shallowly embeds those parts: pure functions become Lean
functions, the network and the filesystem become explicit outcome
parameters, and each job becomes a function from those outcomes to a trace
recording the job status, the files written, and each sub-task result.
-/

namespace Qywx

/-! ## src/util.rs : ReplaceSpecial::replace_special_char -/

/-- The nine characters replaced by a dash (SPECIALS in src/util.rs). -/
def SPECIALS : List Char := ['?', '*', ':', '"', '<', '>', '\\', '/', '|']

/-- The 32 control characters stripped from filenames
(NON_PRINTABLE in src/util.rs lists ASCII 0 through 31 explicitly). -/
def NON_PRINTABLE : List Char := (List.range 32).map Char.ofNat

/-- Models Rust `String::replace(pattern_char, "-")`: every occurrence of
the one-character pattern becomes a dash. -/
def replaceCharWith (c r : Char) (s : List Char) : List Char :=
  s.map fun x => if x = c then r else x

/-- Models Rust `String::replace(pattern_char, "")`: every occurrence of
the one-character pattern is removed. -/
def removeChar (c : Char) (s : List Char) : List Char :=
  s.filter fun x => decide (x ≠ c)

/-- Character-list form of `replace_special_char`: fold the dash
replacement over SPECIALS, then fold the removal over NON_PRINTABLE,
exactly as the two folds in src/util.rs. -/
def sanitizeData (s : List Char) : List Char :=
  NON_PRINTABLE.foldl (fun acc i => removeChar i acc)
    (SPECIALS.foldl (fun acc i => replaceCharWith i '-' acc) s)

/-- Embedding of `ReplaceSpecial::replace_special_char` from src/util.rs. -/
def replace_special_char (s : String) : String :=
  ⟨sanitizeData s.data⟩

/-! ## src/api/data.rs : response schemas

Rust u32 fields become Nat, i32 fields become Int, Option stays Option.
serde_json::Value (used only in the free-form extattr map) is modelled by
a small JSON inductive; its numbers are modelled as integers since no
claim inspects them. -/

inductive JsonValue where
  | jnull : JsonValue
  | jbool : Bool → JsonValue
  | jnum : Int → JsonValue
  | jstr : String → JsonValue
  | jarr : List JsonValue → JsonValue
  | jobj : List (String × JsonValue) → JsonValue

structure GetTokenResp where
  code : Option Int
  msg : Option String
  access_token : Option String
  expires_in : Option Nat
deriving DecidableEq

/-- Embedding of `Success::is_success` for GetTokenResp: only token presence counts. -/
def GetTokenResp.is_success (r : GetTokenResp) : Bool :=
  r.access_token.isSome

structure AgentBasic where
  id : Nat
  name : String
  square_logo_url : Option String
  round_logo_url : Option String
deriving DecidableEq

structure AgentListResp where
  code : Option Int
  msg : Option String
  agent_list : List AgentBasic
deriving DecidableEq

structure Department where
  id : Nat
  name : String
  parent_id : Option Nat
  order : Nat
deriving DecidableEq

structure DepartmentResp where
  code : Option Int
  msg : Option String
  departments : List Department
deriving DecidableEq

structure DepartmentMember where
  name : String
  department : List Nat
  position : String
  mobile : String
  gender : String
  email : String
  avatar : String
  is_leader : Nat
  status : Nat
  enable : Nat
  hide_mobile : Nat
  english_name : String
  telephone : String
  order : List Nat
  main_department : Option Nat
  qr_code : String
  -- the source field is named alias, a reserved word here
  alias_name : String
  is_leader_in_dept : List Nat
  thumb_avatar : String
  biz_mail : Option String
  user_id : String
  extattr : List (String × JsonValue)

structure DepartmentMembersResp where
  code : Option Int
  msg : Option String
  members : List DepartmentMember

structure Tag where
  id : Nat
  name : String
deriving DecidableEq

structure TagsResp where
  code : Option Int
  msg : Option String
  tags : List Tag
deriving DecidableEq

structure TagMember where
  id : String
  name : String
deriving DecidableEq

structure TagMembersResp where
  code : Option Int
  msg : Option String
  members : List TagMember
  department_list : List Nat
  tag_name : String
deriving DecidableEq

/-! ## src/api/mod.rs : WxClient -/

def DEFAULT_USER_AGENT : String :=
  "Mozilla/5.0 (Macintosh; Intel Mac OS X 12_5) AppleWebKit/605.1.15 (KHTML, like Gecko) Version/15.6 Safari/605.1.15"

/-- A reqwest proxy: its URL plus the basic-auth credentials, when both a
username and a password were supplied. -/
structure ProxyConfig where
  url : String
  basic_auth : Option (String × String)
deriving DecidableEq

/-- The transport configuration assembled by `WxClient::new`. -/
structure HttpClientConfig where
  pool_max_idle_per_host : Nat
  proxy : Option ProxyConfig
  user_agent : String
deriving DecidableEq

/-- The client: transport configuration plus the shared optional token. -/
structure WxClient where
  config : HttpClientConfig
  token : Option String
deriving DecidableEq

/-- Embedding of `WxClient::new` from src/api/mod.rs. The source applies basic auth to
the proxy only when both a username and a password are present, attaches
the proxy only when one is given, and performs no co-supply validation.
`reqwest::Proxy::all` on an already-parsed URL and `ClientBuilder::build`
fail only on transport-level conditions that do not depend on the
credential arguments; they are modelled as succeeding. -/
def WxClient.new (proxy : Option String) (auth_user : Option String)
    (auth_pwd : Option String) (user_agent : Option String) :
    Except String WxClient :=
  let base : HttpClientConfig :=
    { pool_max_idle_per_host := 0, proxy := none, user_agent := "" }
  let withProxy : HttpClientConfig :=
    match proxy with
    | some p =>
      let pr : ProxyConfig :=
        if auth_user.isSome && auth_pwd.isSome then
          { url := p,
            basic_auth := some (auth_user.getD "", auth_pwd.getD "") }
        else { url := p, basic_auth := none }
      { base with proxy := some pr }
    | none => base
  .ok { config := { withProxy with
          user_agent := user_agent.getD DEFAULT_USER_AGENT },
        token := none }

/-- Errors surfaced by the client model. -/
inductive ApiError where
  | notLoggedIn : ApiError
  | transport : String → ApiError
  | decodeFail : String → ApiError
  | authFailed : ApiError
deriving DecidableEq

/-- The outcome of sending one HTTP request and decoding its body:
transport failure, decode failure, or a decoded value. -/
inductive NetOutcome (α : Type) where
  | sendErr : NetOutcome α
  | jsonErr : NetOutcome α
  | ok : α → NetOutcome α

/-- Embedding of `WxClient::token`: the installed token, or the not-logged-in error. -/
def tokenOrErr (token : Option String) : Except ApiError String :=
  match token with
  | some s => .ok s
  | none => .error .notLoggedIn

/-- Embedding of `WxClient::login`: on a decoded body, the token is installed iff
`is_success && access_token.is_some()`, which reduces to token presence;
otherwise the call fails. On success the client token is overwritten with
the returned access_token. -/
def WxClient.login (cli : WxClient) (net : NetOutcome GetTokenResp) :
    Except ApiError (WxClient × GetTokenResp) :=
  match net with
  | .sendErr => .error (.transport "Failed to to get token")
  | .jsonErr => .error (.decodeFail "Failed to deserialize GetTokenResp")
  | .ok resp =>
    if resp.is_success && resp.access_token.isSome then
      .ok ({ cli with token := resp.access_token }, resp)
    else
      .error .authFailed

/-- A GET request as assembled by a WxClient method: URL plus query
parameters. -/
structure HttpRequest where
  url : String
  query : List (String × String)
deriving DecidableEq

/-- Request-construction stage of `WxClient::get_agent_list`. The token
lookup runs while the query list is being built, so on a missing token the
method aborts before any request value exists or is sent. The same holds
for the five builders below. -/
def get_agent_list_req (token : Option String) : Except ApiError HttpRequest :=
  (tokenOrErr token).map fun t =>
    { url := "https://qyapi.weixin.qq.com/cgi-bin/agent/list",
      query := [("access_token", t)] }

/-- Request-construction stage of `WxClient::get_departments`; the
optional department id argument is ignored by the source (binder `_id`). -/
def get_departments_req (token : Option String) (_id : Option Nat) :
    Except ApiError HttpRequest :=
  (tokenOrErr token).map fun t =>
    { url := "https://qyapi.weixin.qq.com/cgi-bin/department/list",
      query := [("access_token", t)] }

/-- Request-construction stage of `WxClient::get_all_departments`, which
delegates to `get_departments(None)`. -/
def get_all_departments_req (token : Option String) :
    Except ApiError HttpRequest :=
  get_departments_req token none

/-- Request-construction stage of `WxClient::get_department_members`. -/
def get_department_members_req (token : Option String) (id : Nat)
    (fetch_child : Bool) : Except ApiError HttpRequest :=
  (tokenOrErr token).map fun t =>
    { url := "https://qyapi.weixin.qq.com/cgi-bin/user/list",
      query := [("access_token", t), ("department_id", toString id),
                ("fetch_child", if fetch_child then "1" else "0")] }

/-- Request-construction stage of `WxClient::get_tags`. -/
def get_tags_req (token : Option String) : Except ApiError HttpRequest :=
  (tokenOrErr token).map fun t =>
    { url := "https://qyapi.weixin.qq.com/cgi-bin/tag/list",
      query := [("access_token", t)] }

/-- Request-construction stage of `WxClient::get_tag_members`. -/
def get_tag_members_req (token : Option String) (tag_id : Nat) :
    Except ApiError HttpRequest :=
  (tokenOrErr token).map fun t =>
    { url := "https://qyapi.weixin.qq.com/cgi-bin/tag/get",
      query := [("access_token", t), ("tagid", toString tag_id)] }

/-- Request-construction stage of `WxClient::get_agent_detail`. -/
def get_agent_detail_req (token : Option String) (agent_id : Nat) :
    Except ApiError HttpRequest :=
  (tokenOrErr token).map fun t =>
    { url := "https://qyapi.weixin.qq.com/cgi-bin/agent/get",
      query := [("access_token", t), ("agentid", toString agent_id)] }

/-! ## src/main.rs : credential resolution

main first exits when corp_id, corp_secret and corp_token are all absent
(lines 76 to 79); after building the client it logs in when both id and
secret are present, else installs the raw token when present, else exits
(lines 118 to 132). Both exits call `exit(1)` before any network call. -/

/-- What main does with the supplied credentials. -/
inductive AuthAction where
  | exitConfigEarly : AuthAction
  | exitConfigLate : AuthAction
  | loginWith : String → String → AuthAction
  | installToken : String → AuthAction
deriving DecidableEq

/-- True on the two `exit(1)` configuration-error paths. -/
def AuthAction.isExit : AuthAction → Bool
  | .exitConfigEarly => true
  | .exitConfigLate => true
  | _ => false

/-- Credential resolution of main (lines 76 to 79 and 118 to 132). -/
def resolveCreds (corp_id corp_secret corp_token : Option String) :
    AuthAction :=
  if corp_id.isNone && corp_secret.isNone && corp_token.isNone then
    .exitConfigEarly
  else
    match corp_id, corp_secret with
    | some i, some s => .loginWith i s
    | _, _ =>
      match corp_token with
      | some t => .installToken t
      | none => .exitConfigLate

/-! ## src/main.rs : the collection jobs

Each job is embedded as a function from the environment outcomes (the list
fetch, the per-item fetches, the per-item and top-level filesystem
results) to a trace of the files it wrote and its final status. The spawn
plus await-all structure means every sub-task runs to completion and
contributes one result; the index argument below plays the role of the
launch position. -/

/-- Error cases on which a job itself returns Err. -/
inductive JobError where
  | listPhase : JobError
  | topLevelFs : JobError
  | emptyTxtFs : JobError
deriving DecidableEq

/-- Result of one fan-out sub-task: either it skipped its output (after a
logged fetch, create, serialize or write failure, or for an empty
successful tag) or it wrote one file at the given path. -/
inductive SubResult (α : Type) where
  | skipped : SubResult α
  | written : String → α → SubResult α

/-- The path written by a sub-task, when it wrote one. -/
def SubResult.pathOf {α : Type} : SubResult α → Option String
  | .skipped => none
  | .written p _ => some p

/-- Launch one sub-task per list item, in list order, passing each its
launch index; models the spawn loop plus the await-all loop, which keeps
one handle and hence one completed result per item. -/
def fanOutFrom {α β : Type} (f : Nat → α → β) : Nat → List α → List β
  | _, [] => []
  | k, x :: xs => f k x :: fanOutFrom f (k + 1) xs

/-- One department sub-task (main.rs lines 179 to 221): on a fetch error
it returns with no output; otherwise it writes
departments/members-id-name.json with the name sanitized, unless file
creation, serialization or the write fails, in which case it skips.
`fsOk` bundles those three filesystem outcomes. -/
def deptSubTask (d : Department)
    (fetch : NetOutcome DepartmentMembersResp) (fsOk : Bool) :
    SubResult DepartmentMembersResp :=
  match fetch with
  | .sendErr => .skipped
  | .jsonErr => .skipped
  | .ok resp =>
    if fsOk then
      .written
        ("departments/"
          ++ replace_special_char
              ("members-" ++ toString d.id ++ "-" ++ d.name ++ ".json"))
        resp
    else .skipped

/-- Trace of the department job. -/
structure DeptJobTrace where
  status : Except JobError Unit
  listFile : Option DepartmentResp
  subResults : List (SubResult DepartmentMembersResp)

/-- The department job (main.rs lines 159 to 231). Parameters: the list
fetch outcome, whether creating and writing departments.json succeeds,
whether creating the departments directory succeeds, then per launch
index the member fetch outcome and the filesystem outcome of that
sub-task. A list phase failure aborts with no output; a top-level
filesystem failure aborts the job (via the question-mark operator) before
any sub-task is spawned; otherwise every sub-task runs and the job ends
Ok regardless of sub-task outcomes. -/
def department_job (listNet : NetOutcome DepartmentResp)
    (listFileOk : Bool) (mkdirOk : Bool)
    (subFetch : Nat → NetOutcome DepartmentMembersResp)
    (subFsOk : Nat → Bool) : DeptJobTrace :=
  match listNet with
  | .sendErr => ⟨.error .listPhase, none, []⟩
  | .jsonErr => ⟨.error .listPhase, none, []⟩
  | .ok resp =>
    if listFileOk then
      if mkdirOk then
        ⟨.ok (), some resp,
          fanOutFrom (fun k d => deptSubTask d (subFetch k) (subFsOk k)) 0
            resp.departments⟩
      else ⟨.error .topLevelFs, some resp, []⟩
    else ⟨.error .topLevelFs, none, []⟩

/-- The header the shared empty-tag buffer is created with. -/
def EMPTY_HEADER : String := "These tags has no member:\n"

/-- The line appended to the shared buffer for an empty successful tag. -/
def emptyTagLine (t : Tag) : String :=
  toString t.id ++ " - " ++ t.name ++ "\n"

/-- One tag sub-task (main.rs lines 252 to 300). Returns its file result
together with the line it appends to the shared empty-tag buffer, if any.
The empty check precedes file creation: an empty member list with errcode
zero appends the id-name line and returns before any file work. -/
def tagSubTask (t : Tag) (fetch : NetOutcome TagMembersResp)
    (fsOk : Bool) : SubResult TagMembersResp × Option String :=
  match fetch with
  | .sendErr => (.skipped, none)
  | .jsonErr => (.skipped, none)
  | .ok resp =>
    if resp.members.isEmpty && resp.code == some 0 then
      (.skipped, some (emptyTagLine t))
    else if fsOk then
      (.written
        ("tags/"
          ++ replace_special_char
              ("members-" ++ toString t.id ++ "-" ++ t.name ++ ".json"))
        resp, none)
    else (.skipped, none)

/-- The buffer line contributed by the sub-task at launch index k. -/
def tagContrib (tags : List Tag)
    (subFetch : Nat → NetOutcome TagMembersResp) (subFsOk : Nat → Bool)
    (k : Nat) : Option String :=
  match tags[k]? with
  | some t => (tagSubTask t (subFetch k) (subFsOk k)).2
  | none => none

/-- Trace of the tag job. `emptyFile` is the content of tags/_empty.txt
when that file was written. -/
structure TagJobTrace where
  status : Except JobError Unit
  listFile : Option TagsResp
  subResults : List (SubResult TagMembersResp)
  emptyFile : Option String

/-- The tag job (main.rs lines 233 to 315). Like the department job, plus
the shared empty-tag buffer: `order` is the order in which the concurrent
sub-tasks acquire the buffer lock (a permutation of the launch indices;
the lock makes each append atomic), and the buffer is flushed to
tags/_empty.txt once, after the await-all loop, when that final create
and write succeed (`emptyTxtOk`). -/
def tag_job (listNet : NetOutcome TagsResp)
    (listFileOk : Bool) (mkdirOk : Bool)
    (subFetch : Nat → NetOutcome TagMembersResp) (subFsOk : Nat → Bool)
    (order : List Nat) (emptyTxtOk : Bool) : TagJobTrace :=
  match listNet with
  | .sendErr => ⟨.error .listPhase, none, [], none⟩
  | .jsonErr => ⟨.error .listPhase, none, [], none⟩
  | .ok resp =>
    if listFileOk then
      if mkdirOk then
        let results :=
          fanOutFrom (fun k t => (tagSubTask t (subFetch k) (subFsOk k)).1)
            0 resp.tags
        let content :=
          EMPTY_HEADER
            ++ String.join
                (order.filterMap (tagContrib resp.tags subFetch subFsOk))
        if emptyTxtOk then ⟨.ok (), some resp, results, some content⟩
        else ⟨.error .emptyTxtFs, some resp, results, none⟩
      else ⟨.error .topLevelFs, some resp, [], none⟩
    else ⟨.error .topLevelFs, none, [], none⟩

/-! ## Concrete scenario values used by counterexamples and witnesses -/

/-- Department list for the C1 scenarios. -/
def deptRespC1 : DepartmentResp :=
  ⟨some 0, some "ok", [{ id := 1, name := "HR", parent_id := none, order := 1 }]⟩

/-- Tag list for the C1 scenarios. -/
def tagsRespC1 : TagsResp := ⟨some 0, some "ok", [{ id := 1, name := "t" }]⟩

/-- Tag list for the C2 scenarios: one tag. -/
def tagsRespC2 : TagsResp := ⟨some 0, some "ok", [{ id := 1, name := "a" }]⟩

/-- A tag member response with one member and a success code. -/
def tagMembersOne : TagMembersResp :=
  ⟨some 0, some "ok", [{ id := "u1", name := "n1" }], [], "a"⟩

/-- Tag list for the C2 witness: two tags. -/
def tagsRespC2w : TagsResp :=
  ⟨some 0, some "ok", [{ id := 1, name := "a" }, { id := 2, name := "b" }]⟩

/-- An empty tag member response with a success code. -/
def tagMembersEmptyW : TagMembersResp := ⟨some 0, some "ok", [], [], "a"⟩

/-- Per-index tag fetch outcomes for the C2 witness. -/
def tagFetchW : Nat → NetOutcome TagMembersResp
  | 0 => .ok tagMembersEmptyW
  | _ => .ok tagMembersOne

/-- A decoded token response carrying both an error code and a token. -/
def tokenRespErrCodeWithToken : GetTokenResp :=
  ⟨some 40013, some "invalid corpid", some "TOKEN", some 7200⟩

/-- A freshly built client with no proxy and no token. -/
def clientBase : WxClient :=
  ⟨{ pool_max_idle_per_host := 0, proxy := none,
     user_agent := DEFAULT_USER_AGENT }, none⟩

/-- A department member record used in the C8 scenario. -/
def memberAlice : DepartmentMember :=
  { name := "Alice", department := [1], position := "", mobile := "",
    gender := "1", email := "", avatar := "", is_leader := 0, status := 1,
    enable := 1, hide_mobile := 0, english_name := "", telephone := "",
    order := [1], main_department := some 1, qr_code := "",
    alias_name := "", is_leader_in_dept := [0], thumb_avatar := "",
    biz_mail := none, user_id := "alice", extattr := [] }

/-- A second department member record used in the C8 scenario. -/
def memberBob : DepartmentMember :=
  { memberAlice with name := "Bob", department := [2], user_id := "bob" }

/-- The two departments of the C8 end-to-end scenario. -/
def deptListC8 : DepartmentResp :=
  ⟨some 0, some "ok",
    [{ id := 1, name := "HR", parent_id := none, order := 1 },
     { id := 2, name := "R&D/Sec", parent_id := none, order := 2 }]⟩

/-- Member response of department 1 in the C8 scenario. -/
def membersHR : DepartmentMembersResp := ⟨some 0, some "ok", [memberAlice]⟩

/-- Member response of department 2 in the C8 scenario. -/
def membersRD : DepartmentMembersResp := ⟨some 0, some "ok", [memberBob]⟩

/-- Per-index member fetch outcomes of the C8 scenario. -/
def fetchC8 : Nat → NetOutcome DepartmentMembersResp
  | 0 => .ok membersHR
  | _ => .ok membersRD

/-- The department job trace of the C8 scenario: mock list with the two
departments, every fetch and write succeeding. -/
def traceC8 : DeptJobTrace :=
  department_job (.ok deptListC8) true true fetchC8 fun _ => true

/-- Department list for the C9 scenario. -/
def deptListC9 : DepartmentResp :=
  ⟨some 0, some "ok",
    [{ id := 3, name := "Empty Dept", parent_id := none, order := 1 }]⟩

/-- A successful member fetch returning no members. -/
def membersEmptyC9 : DepartmentMembersResp := ⟨some 0, some "ok", []⟩

/-! ## Helper lemmas -/

/-- The fold of dash replacements over a character list acts as a single
pointwise map. -/
lemma foldl_replaceCharWith (L : List Char) (s : List Char) :
    L.foldl (fun acc i => replaceCharWith i '-' acc) s
      = s.map fun c => if c ∈ L then '-' else c := by
  induction L generalizing s with
  | nil => simp
  | cons a L ih =>
    rw [List.foldl_cons, ih]
    unfold replaceCharWith
    rw [List.map_map]
    refine List.map_congr_left fun c _ => ?_
    by_cases h : c = a
    · subst h; simp
    · simp [h]

/-- The fold of removals over a character list acts as a single filter. -/
lemma foldl_removeChar (L : List Char) (s : List Char) :
    L.foldl (fun acc i => removeChar i acc) s
      = s.filter fun c => decide (c ∉ L) := by
  induction L generalizing s with
  | nil => simp
  | cons a L ih =>
    rw [List.foldl_cons, ih]
    unfold removeChar
    rw [List.filter_filter]
    refine List.filter_congr fun c _ => ?_
    by_cases h : c = a <;> simp [h]

/-- Membership in NON_PRINTABLE is exactly having a code point below 32. -/
lemma mem_NON_PRINTABLE (c : Char) : c ∈ NON_PRINTABLE ↔ c.toNat < 32 := by
  constructor
  · intro h
    simp only [NON_PRINTABLE, List.mem_map, List.mem_range] at h
    obtain ⟨n, hn, rfl⟩ := h
    interval_cases n <;> decide
  · intro h
    simp only [NON_PRINTABLE, List.mem_map, List.mem_range]
    exact ⟨c.toNat, h, Char.ofNat_toNat c⟩

/-- Closed form of the sanitizer: map specials to a dash, then drop the
code points below 32. -/
lemma sanitizeData_eq (s : List Char) :
    sanitizeData s
      = (s.map fun c => if c ∈ SPECIALS then '-' else c).filter
          fun c => decide (32 ≤ c.toNat) := by
  unfold sanitizeData
  rw [foldl_replaceCharWith, foldl_removeChar]
  refine List.filter_congr fun c _ => ?_
  simp [mem_NON_PRINTABLE, Nat.not_lt]

/-- Every character surviving sanitization is neither special nor a
control character. -/
lemma mem_sanitizeData {c : Char} {s : List Char} (h : c ∈ sanitizeData s) :
    c ∉ SPECIALS ∧ 32 ≤ c.toNat := by
  rw [sanitizeData_eq] at h
  rw [List.mem_filter] at h
  obtain ⟨hmem, hpred⟩ := h
  rw [List.mem_map] at hmem
  obtain ⟨x, _, rfl⟩ := hmem
  refine ⟨?_, by simpa using hpred⟩
  by_cases hx : x ∈ SPECIALS
  · simp only [hx, if_pos]
    decide
  · simp [hx]

/-- Sanitizing an already-clean character list changes nothing. -/
lemma sanitizeData_of_clean {s : List Char}
    (h : ∀ c ∈ s, c ∉ SPECIALS ∧ 32 ≤ c.toNat) : sanitizeData s = s := by
  rw [sanitizeData_eq]
  have hmap : (s.map fun c => if c ∈ SPECIALS then '-' else c) = s := by
    have := List.map_congr_left (l := s)
      (f := fun c => if c ∈ SPECIALS then '-' else c) (g := id)
      fun c hc => by simp [(h c hc).1]
    rw [this, List.map_id]
  rw [hmap]
  rw [List.filter_eq_self]
  intro c hc
  simpa using (h c hc).2

/-- Unfolding the string wrapper of the sanitizer. -/
lemma replace_special_char_data (s : String) :
    (replace_special_char s).data = sanitizeData s.data := by
  unfold replace_special_char
  with_reducible rfl

/-- Length of a fan-out: one result per item. -/
lemma fanOutFrom_length {α β : Type} (f : Nat → α → β) (i : Nat)
    (l : List α) : (fanOutFrom f i l).length = l.length := by
  induction l generalizing i with
  | nil => rfl
  | cons x xs ih => simp [fanOutFrom, ih]

/-- Indexing a fan-out: slot k holds the sub-task of item k. -/
lemma fanOutFrom_getElem? {α β : Type} (f : Nat → α → β) (i : Nat)
    (l : List α) (k : Nat) :
    (fanOutFrom f i l)[k]? = l[k]?.map (f (i + k)) := by
  induction l generalizing i k with
  | nil => simp [fanOutFrom]
  | cons x xs ih =>
    cases k with
    | zero => simp [fanOutFrom]
    | succ k =>
      simp only [fanOutFrom, List.getElem?_cons_succ, ih]
      have : i + (k + 1) = i + 1 + k := by omega
      rw [this]

/-- Slot k of the department job results is the sub-task of department k. -/
lemma department_job_sub_getElem? (resp : DepartmentResp)
    (f : Nat → NetOutcome DepartmentMembersResp) (fs : Nat → Bool) (k : Nat) :
    (department_job (.ok resp) true true f fs).subResults[k]?
      = resp.departments[k]?.map fun d => deptSubTask d (f k) (fs k) := by
  show (fanOutFrom _ 0 resp.departments)[k]? = _
  rw [fanOutFrom_getElem?]
  simp

/-- Slot k of the tag job results is the sub-task of tag k. -/
lemma tag_job_sub_getElem? (resp : TagsResp)
    (f : Nat → NetOutcome TagMembersResp) (fs : Nat → Bool)
    (order : List Nat) (k : Nat) :
    (tag_job (.ok resp) true true f fs order true).subResults[k]?
      = resp.tags[k]?.map fun t => (tagSubTask t (f k) (fs k)).1 := by
  show (fanOutFrom _ 0 resp.tags)[k]? = _
  rw [fanOutFrom_getElem?]
  simp

example : replace_special_char "members-2-R&D/Sec.json" = "members-2-R&D-Sec.json" := by
  decide

example : replace_special_char "a?b*c:d" = "a-b-c-d" := by decide

/-! ## Claims -/

/-- C3: for every input string, the sanitized filename returned by
replace_special_char contains none of the nine special characters and no
control character with code point below 32; moreover the result is the
input with each of the nine specials replaced by a dash and the control
characters stripped. -/
theorem C3_sanitizer_output_clean :
    ∀ s : String,
      (∀ c ∈ (replace_special_char s).data, c ∉ SPECIALS ∧ 32 ≤ c.toNat) ∧
      (replace_special_char s).data
        = (s.data.map fun c => if c ∈ SPECIALS then '-' else c).filter
            fun c => decide (32 ≤ c.toNat) := by
  intro s
  refine ⟨?_, ?_⟩
  · rw [replace_special_char_data]
    exact fun _ hc => mem_sanitizeData hc
  · rw [replace_special_char_data]
    exact sanitizeData_eq s.data

/-- C3 witness: instantiating the membership clause on the sanitized form
of a string containing a slash. -/
theorem C3_sanitizer_output_clean_witness :
    '-' ∉ SPECIALS ∧ 32 ≤ '-'.toNat :=
  (C3_sanitizer_output_clean "a/b").1 '-' (by decide)

/-- C10: replace_special_char is idempotent. -/
theorem C10_replace_special_char_idempotent :
    ∀ s : String,
      replace_special_char (replace_special_char s)
        = replace_special_char s := by
  intro s
  have h1 : sanitizeData (sanitizeData s.data) = sanitizeData s.data :=
    sanitizeData_of_clean fun _ hc => mem_sanitizeData hc
  have h2 : (String.mk (sanitizeData s.data)).data = sanitizeData s.data := by
    with_reducible rfl
  unfold replace_special_char
  rw [h2, h1]

/-- C5 counterexample: supplying proxy credentials without a proxy does
not fail with a validation error; client construction succeeds and the
credentials are silently dropped. -/
theorem C5_counterexample_no_validation :
    WxClient.new none (some "user") (some "pwd") none = .ok clientBase := rfl

/-- C5 (amended): client construction performs no proxy or credential
co-supply validation and always succeeds; basic auth appears on the proxy
exactly when a proxy and both credential halves are supplied, and
otherwise the credentials are ignored. -/
theorem C5_new_no_cosupply_validation :
    ∀ (proxy auth_user auth_pwd user_agent : Option String),
      WxClient.new proxy auth_user auth_pwd user_agent
        = .ok
            { config :=
                { pool_max_idle_per_host := 0,
                  proxy := proxy.map fun px =>
                    { url := px,
                      basic_auth :=
                        match auth_user, auth_pwd with
                        | some u, some p => some (u, p)
                        | _, _ => none },
                  user_agent := user_agent.getD DEFAULT_USER_AGENT },
              token := none } := by
  intro proxy u p ua
  cases proxy <;> cases u <;> cases p <;> rfl

/-- C6 counterexample: with both credential forms fully present the
process does not exit with a configuration error; it logs in with the id
and secret and ignores the token. -/
theorem C6_counterexample_both_forms :
    resolveCreds (some "id") (some "secret") (some "tok")
        = .loginWith "id" "secret" ∧
      (resolveCreds (some "id") (some "secret") (some "tok")).isExit
        = false :=
  ⟨rfl, rfl⟩

/-- C6 (amended): the process exits non-zero with a configuration error,
before any network call, exactly when neither credential form is fully
present; when id and secret are both present it logs in with them, even
if a token is also supplied, and otherwise a present token is installed
directly. -/
theorem C6_credential_gate :
    ∀ (ci cs ct : Option String),
      ((resolveCreds ci cs ct).isExit
          = (!(ci.isSome && cs.isSome) && !ct.isSome)) ∧
      (∀ i s, resolveCreds (some i) (some s) ct = .loginWith i s) ∧
      (∀ t, resolveCreds none cs (some t) = .installToken t) ∧
      (∀ t i, resolveCreds (some i) none (some t) = .installToken t) := by
  intro ci cs ct
  refine ⟨?_, ?_, ?_, ?_⟩
  · cases ci <;> cases cs <;> cases ct <;> rfl
  · intro i s
    cases ct <;> rfl
  · intro t
    cases cs <;> rfl
  · intro t i
    rfl

/-- C7: every directory endpoint fails with the not-logged-in error when
no token is installed — the token lookup aborts the method while the
query list is being assembled, before any request value exists or is
sent — and with a token installed each endpoint attaches it as the
access_token query parameter. -/
theorem C7_endpoints_token_gated :
    (get_agent_list_req none = .error .notLoggedIn) ∧
    (∀ i, get_departments_req none i = .error .notLoggedIn) ∧
    (get_all_departments_req none = .error .notLoggedIn) ∧
    (∀ i rc, get_department_members_req none i rc = .error .notLoggedIn) ∧
    (get_tags_req none = .error .notLoggedIn) ∧
    (∀ i, get_tag_members_req none i = .error .notLoggedIn) ∧
    (∀ i, get_agent_detail_req none i = .error .notLoggedIn) ∧
    (∀ t, get_agent_list_req (some t)
      = .ok { url := "https://qyapi.weixin.qq.com/cgi-bin/agent/list",
              query := [("access_token", t)] }) ∧
    (∀ t i, get_departments_req (some t) i
      = .ok { url := "https://qyapi.weixin.qq.com/cgi-bin/department/list",
              query := [("access_token", t)] }) ∧
    (∀ t, get_all_departments_req (some t)
      = .ok { url := "https://qyapi.weixin.qq.com/cgi-bin/department/list",
              query := [("access_token", t)] }) ∧
    (∀ t i rc, get_department_members_req (some t) i rc
      = .ok { url := "https://qyapi.weixin.qq.com/cgi-bin/user/list",
              query := [("access_token", t), ("department_id", toString i),
                        ("fetch_child", if rc then "1" else "0")] }) ∧
    (∀ t, get_tags_req (some t)
      = .ok { url := "https://qyapi.weixin.qq.com/cgi-bin/tag/list",
              query := [("access_token", t)] }) ∧
    (∀ t i, get_tag_members_req (some t) i
      = .ok { url := "https://qyapi.weixin.qq.com/cgi-bin/tag/get",
              query := [("access_token", t), ("tagid", toString i)] }) ∧
    (∀ t i, get_agent_detail_req (some t) i
      = .ok { url := "https://qyapi.weixin.qq.com/cgi-bin/agent/get",
              query := [("access_token", t), ("agentid", toString i)] }) := by
  refine ⟨rfl, fun _ => rfl, rfl, fun _ _ => rfl, rfl, fun _ => rfl,
    fun _ => rfl, fun _ => rfl, fun _ _ => rfl, fun _ => rfl,
    fun _ _ _ => rfl, fun _ => rfl, fun _ _ => rfl, fun _ _ => rfl⟩

/-- C4 counterexample: a decoded token response that carries an error
code together with a token does not fail; login succeeds and installs the
token, because the success check only tests token presence. -/
theorem C4_counterexample_error_code_with_token :
    clientBase.login (.ok tokenRespErrCodeWithToken)
      = .ok ({ clientBase with token := some "TOKEN" },
          tokenRespErrCodeWithToken) := rfl

/-- C4 (amended): login fails with an authentication error exactly when
the decoded response carries no token — an error code alone is not
treated as failure; transport and decode failures surface as such; on
success the returned token is installed into the client as a side
effect. -/
theorem C4_login_token_presence :
    ∀ (cli : WxClient) (net : NetOutcome GetTokenResp),
      (net = .sendErr →
        cli.login net = .error (.transport "Failed to to get token")) ∧
      (net = .jsonErr →
        cli.login net
          = .error (.decodeFail "Failed to deserialize GetTokenResp")) ∧
      (∀ resp, net = .ok resp → resp.access_token = none →
        cli.login net = .error .authFailed) ∧
      (∀ resp t, net = .ok resp → resp.access_token = some t →
        cli.login net = .ok ({ cli with token := some t }, resp)) := by
  intro cli net
  refine ⟨?_, ?_, ?_, ?_⟩
  · rintro rfl; rfl
  · rintro rfl; rfl
  · rintro resp rfl hnone
    simp [WxClient.login, GetTokenResp.is_success, hnone]
  · rintro resp t rfl hsome
    simp [WxClient.login, GetTokenResp.is_success, hsome]

/-- C4 witness: instantiating the token-absent and token-present clauses
on concrete responses. -/
theorem C4_login_token_presence_witness :
    clientBase.login (.ok ⟨some 40013, some "bad secret", none, none⟩)
        = .error .authFailed ∧
      clientBase.login (.ok ⟨some 0, some "ok", some "T", some 7200⟩)
        = .ok ({ clientBase with token := some "T" },
            ⟨some 0, some "ok", some "T", some 7200⟩) :=
  ⟨(C4_login_token_presence clientBase
      (.ok ⟨some 40013, some "bad secret", none, none⟩)).2.2.1
      ⟨some 40013, some "bad secret", none, none⟩ rfl rfl,
    (C4_login_token_presence clientBase
      (.ok ⟨some 0, some "ok", some "T", some 7200⟩)).2.2.2
      ⟨some 0, some "ok", some "T", some 7200⟩ "T" rfl rfl⟩

/-- C1 counterexample: the list phase succeeded (the fetch decoded) yet
the job returns an error, because creating or writing the top-level
departments.json failed; so the job does not succeed whenever the list
phase succeeded. -/
theorem C1_counterexample_top_level_write :
    (department_job (.ok deptRespC1) false true (fun _ => .sendErr)
        fun _ => true).status
      = .error .topLevelFs := rfl

/-- C1 (amended): for each job whose list phase succeeds and whose own
top-level writes (the list JSON file and the subdirectory, and for the
tag job the final empty-log write) succeed, the job returns success
regardless of sub-task outcomes, one completed result per item is
awaited, a failing sub-task k yields exactly a skipped slot k, and
changing the outcomes of sub-task k alone leaves every other slot
unchanged. -/
theorem C1_subtask_failure_isolation :
    ∀ (dresp : DepartmentResp)
      (df df2 : Nat → NetOutcome DepartmentMembersResp)
      (dfs dfs2 : Nat → Bool) (tresp : TagsResp)
      (tf tf2 : Nat → NetOutcome TagMembersResp) (tfs tfs2 : Nat → Bool)
      (order : List Nat) (k : Nat),
      ((department_job (.ok dresp) true true df dfs).status = .ok ()) ∧
      ((department_job (.ok dresp) true true df dfs).subResults.length
        = dresp.departments.length) ∧
      ((df k = .sendErr ∨ df k = .jsonErr ∨ dfs k = false) →
        (department_job (.ok dresp) true true df dfs).subResults[k]?
          = dresp.departments[k]?.map fun _ => SubResult.skipped) ∧
      ((∀ j, j ≠ k → df2 j = df j ∧ dfs2 j = dfs j) →
        ∀ j, j ≠ k →
          (department_job (.ok dresp) true true df2 dfs2).subResults[j]?
            = (department_job (.ok dresp) true true df dfs).subResults[j]?) ∧
      ((tag_job (.ok tresp) true true tf tfs order true).status = .ok ()) ∧
      ((tag_job (.ok tresp) true true tf tfs order true).subResults.length
        = tresp.tags.length) ∧
      ((tf k = .sendErr ∨ tf k = .jsonErr ∨ tfs k = false) →
        (tag_job (.ok tresp) true true tf tfs order true).subResults[k]?
          = tresp.tags[k]?.map fun _ => SubResult.skipped) ∧
      ((∀ j, j ≠ k → tf2 j = tf j ∧ tfs2 j = tfs j) →
        ∀ j, j ≠ k →
          (tag_job (.ok tresp) true true tf2 tfs2 order true).subResults[j]?
            = (tag_job (.ok tresp) true true tf tfs order true).subResults[j]?)
    := by
  intro dresp df df2 dfs dfs2 tresp tf tf2 tfs tfs2 order k
  refine ⟨rfl, fanOutFrom_length _ 0 _, ?_, ?_, rfl,
    fanOutFrom_length _ 0 _, ?_, ?_⟩
  · intro h
    rw [department_job_sub_getElem?]
    cases dresp.departments[k]? with
    | none => rfl
    | some d =>
      show some (deptSubTask d (df k) (dfs k)) = some SubResult.skipped
      rcases h with h | h | h
      · rw [h]
        rfl
      · rw [h]
        rfl
      · cases hdf : df k <;> simp [deptSubTask, h]
  · intro hagree j hj
    rw [department_job_sub_getElem?, department_job_sub_getElem?,
      (hagree j hj).1, (hagree j hj).2]
  · intro h
    rw [tag_job_sub_getElem?]
    cases tresp.tags[k]? with
    | none => rfl
    | some t =>
      show some (tagSubTask t (tf k) (tfs k)).1 = some SubResult.skipped
      rcases h with h | h | h
      · rw [h]
        rfl
      · rw [h]
        rfl
      · cases htf : tf k with
        | sendErr => rfl
        | jsonErr => rfl
        | ok resp =>
          by_cases he : (resp.members.isEmpty && resp.code == some 0) = true
          · simp [tagSubTask, he]
          · simp [tagSubTask, he, h]
  · intro hagree j hj
    rw [tag_job_sub_getElem?, tag_job_sub_getElem?,
      (hagree j hj).1, (hagree j hj).2]

/-- C1 witness: on a one-department list whose sub-task fetch fails by
transport and a one-tag list whose sub-task write fails, the jobs still
return success, every slot is accounted for, and the failing slots are
skipped. -/
theorem C1_subtask_failure_isolation_witness :
    ((department_job (.ok deptRespC1) true true (fun _ => .sendErr)
        fun _ => true).status = .ok ()) ∧
      ((department_job (.ok deptRespC1) true true (fun _ => .sendErr)
          fun _ => true).subResults[0]?
        = deptRespC1.departments[0]?.map fun _ => SubResult.skipped) ∧
      ((tag_job (.ok tagsRespC1) true true (fun _ => .ok tagMembersOne)
          (fun _ => false) [0] true).subResults[0]?
        = tagsRespC1.tags[0]?.map fun _ => SubResult.skipped) := by
  have hd := C1_subtask_failure_isolation deptRespC1 (fun _ => .sendErr)
    (fun _ => .sendErr) (fun _ => true) (fun _ => true) tagsRespC1
    (fun _ => .ok tagMembersOne) (fun _ => .ok tagMembersOne)
    (fun _ => false) (fun _ => false) [0] 0
  exact ⟨hd.1, hd.2.2.1 (Or.inl rfl), hd.2.2.2.2.2.2.1 (Or.inr (Or.inr rfl))⟩

/-- C2 counterexample: a tag whose fetch succeeded with one member but
whose file write failed produces no members file, so a tag with at least
one member does not always produce a file; also, with no empty tags at
all, tags/_empty.txt still holds the header line rather than being
exactly the newline-delimited entries. -/
theorem C2_counterexample_write_failure :
    tagMembersOne.members.length = 1 ∧
      (tag_job (.ok tagsRespC2) true true (fun _ => .ok tagMembersOne)
          (fun _ => false) [0] true).subResults
        = [SubResult.skipped] ∧
      (tag_job (.ok tagsRespC2) true true (fun _ => .ok tagMembersOne)
          (fun _ => false) [0] true).emptyFile
        = some EMPTY_HEADER :=
  ⟨rfl, rfl, rfl⟩

/-- C2 (amended): with the top-level writes succeeding, a tag whose fetch
succeeds with no members and errcode 0 yields a skipped slot and
contributes its id-name line to the shared buffer, which the line then
appears in; a tag with at least one member whose write succeeds yields a
written members file and contributes no buffer line; the buffer — the
header line followed by the contributed entries in lock-acquisition
order — is flushed to tags/_empty.txt once, after all sub-tasks, and its
entries are, up to permutation, exactly the contributions of the empty
successful tags. -/
theorem C2_empty_tag_log :
    ∀ (resp : TagsResp) (subFetch : Nat → NetOutcome TagMembersResp)
      (subFsOk : Nat → Bool) (order : List Nat),
      order.Perm (List.range resp.tags.length) →
      (∀ k t r, resp.tags[k]? = some t → subFetch k = .ok r →
        r.members = [] → r.code = some 0 →
          (tag_job (.ok resp) true true subFetch subFsOk order
              true).subResults[k]?
            = some SubResult.skipped ∧
          tagContrib resp.tags subFetch subFsOk k
            = some (emptyTagLine t) ∧
          emptyTagLine t
            ∈ order.filterMap (tagContrib resp.tags subFetch subFsOk)) ∧
      (∀ k t r, resp.tags[k]? = some t → subFetch k = .ok r →
        r.members ≠ [] → subFsOk k = true →
          (tag_job (.ok resp) true true subFetch subFsOk order
              true).subResults[k]?
            = some (SubResult.written
                ("tags/" ++ replace_special_char
                  ("members-" ++ toString t.id ++ "-" ++ t.name ++ ".json"))
                r) ∧
          tagContrib resp.tags subFetch subFsOk k = none) ∧
      ((tag_job (.ok resp) true true subFetch subFsOk order true).emptyFile
        = some (EMPTY_HEADER
            ++ String.join
                (order.filterMap (tagContrib resp.tags subFetch subFsOk)))) ∧
      (order.filterMap (tagContrib resp.tags subFetch subFsOk)).Perm
        ((List.range resp.tags.length).filterMap
          (tagContrib resp.tags subFetch subFsOk)) := by
  intro resp subFetch subFsOk order horder
  refine ⟨?_, ?_, rfl, horder.filterMap _⟩
  · intro k t r ht hf hm hc
    have hcontrib : tagContrib resp.tags subFetch subFsOk k
        = some (emptyTagLine t) := by
      unfold tagContrib
      rw [ht, hf]
      simp [tagSubTask, hm, hc]
    refine ⟨?_, hcontrib, ?_⟩
    · rw [tag_job_sub_getElem?, ht]
      show some (tagSubTask t (subFetch k) (subFsOk k)).1
        = some SubResult.skipped
      rw [hf]
      simp [tagSubTask, hm, hc]
    · rw [List.mem_filterMap]
      refine ⟨k, ?_, hcontrib⟩
      have hk : k < resp.tags.length :=
        (List.getElem?_eq_some_iff.mp ht).1
      exact horder.mem_iff.mpr (List.mem_range.mpr hk)
  · intro k t r ht hf hm hfs
    obtain ⟨a, l, hml⟩ : ∃ a l, r.members = a :: l := by
      cases hml : r.members with
      | nil => exact absurd hml hm
      | cons a l => exact ⟨a, l, rfl⟩
    constructor
    · rw [tag_job_sub_getElem?, ht]
      show some (tagSubTask t (subFetch k) (subFsOk k)).1 = _
      rw [hf]
      simp [tagSubTask, hml, hfs]
    · unfold tagContrib
      rw [ht, hf]
      simp [tagSubTask, hml, hfs]

/-- C2 witness: a two-tag list, the first empty-successful and the second
with one member, flushed in completion order second-then-first. -/
theorem C2_empty_tag_log_witness :
    ((tag_job (.ok tagsRespC2w) true true tagFetchW (fun _ => true) [1, 0]
        true).subResults[0]?
      = some SubResult.skipped) ∧
      (tagContrib tagsRespC2w.tags tagFetchW (fun _ => true) 0
        = some (emptyTagLine { id := 1, name := "a" })) ∧
      ((tag_job (.ok tagsRespC2w) true true tagFetchW (fun _ => true) [1, 0]
          true).subResults[1]?
        = some (SubResult.written "tags/members-2-b.json" tagMembersOne)) ∧
      (tagContrib tagsRespC2w.tags tagFetchW (fun _ => true) 1 = none) := by
  have h := C2_empty_tag_log tagsRespC2w tagFetchW (fun _ => true) [1, 0]
    (by decide)
  have h0 := h.1 0 { id := 1, name := "a" } tagMembersEmptyW rfl rfl rfl rfl
  have h1 := h.2.1 1 { id := 2, name := "b" } tagMembersOne rfl rfl
    (by decide) rfl
  exact ⟨h0.1, h0.2.1, h1.1, h1.2⟩

/-- C8 counterexample: in the two-department scenario the second member
file is named departments/members-2-R&D-Sec.json — only the slash is a
special character, the ampersand is kept — so the claimed name
departments/members-2-R-D-Sec.json is never produced. -/
theorem C8_counterexample_ampersand_kept :
    traceC8.subResults.map SubResult.pathOf
        = [some "departments/members-1-HR.json",
           some "departments/members-2-R&D-Sec.json"] ∧
      some "departments/members-2-R-D-Sec.json"
        ∉ traceC8.subResults.map SubResult.pathOf := by
  refine ⟨by decide, by decide⟩

/-- C8 (amended): the two-department scenario succeeds, writes
departments.json with 2 entries, and writes exactly the member files
departments/members-1-HR.json and departments/members-2-R&D-Sec.json,
each holding one member record. -/
theorem C8_two_department_scenario :
    traceC8.status = .ok () ∧
      traceC8.listFile = some deptListC8 ∧
      deptListC8.departments.length = 2 ∧
      traceC8.subResults
        = [SubResult.written "departments/members-1-HR.json" membersHR,
           SubResult.written "departments/members-2-R&D-Sec.json"
             membersRD] ∧
      membersHR.members.length = 1 ∧
      membersRD.members.length = 1 :=
  ⟨rfl, rfl, rfl, rfl, rfl, rfl⟩

/-- C9 counterexample: a department whose member fetch succeeded with an
empty member list still gets a members file (holding the empty list), so
files are not written only for departments with a non-empty fetch. -/
theorem C9_counterexample_empty_fetch_writes :
    membersEmptyC9.members = [] ∧
      (department_job (.ok deptListC9) true true
          (fun _ => .ok membersEmptyC9) fun _ => true).subResults
        = [SubResult.written "departments/members-3-Empty Dept.json"
            membersEmptyC9] :=
  ⟨rfl, rfl⟩

/-- C9 (amended): with the top-level writes succeeding, a members file is
written for exactly the departments whose member fetch succeeded and
whose own file write succeeded, regardless of whether the member list is
empty. -/
theorem C9_member_file_iff_fetch_ok :
    ∀ (resp : DepartmentResp)
      (subFetch : Nat → NetOutcome DepartmentMembersResp)
      (subFsOk : Nat → Bool) (k : Nat),
      k < resp.departments.length →
      ((∃ p r, (department_job (.ok resp) true true subFetch
            subFsOk).subResults[k]?
          = some (SubResult.written p r)) ↔
        ((∃ r, subFetch k = .ok r) ∧ subFsOk k = true)) := by
  intro resp subFetch subFsOk k hk
  rw [department_job_sub_getElem?]
  rw [List.getElem?_eq_getElem hk]
  constructor
  · rintro ⟨p, r, h⟩
    rw [Option.map_some'] at h
    cases hf : subFetch k with
    | sendErr => rw [hf] at h; exact absurd (Option.some.inj h) (by simp [deptSubTask])
    | jsonErr => rw [hf] at h; exact absurd (Option.some.inj h) (by simp [deptSubTask])
    | ok resp2 =>
      rw [hf] at h
      have h2 := Option.some.inj h
      by_cases hfs : subFsOk k = true
      · exact ⟨⟨resp2, rfl⟩, hfs⟩
      · have hfs2 : subFsOk k = false := by
          cases hb : subFsOk k
          · rfl
          · exact absurd hb hfs
        simp [deptSubTask, hfs2] at h2
  · rintro ⟨⟨r, hr⟩, hfs⟩
    refine ⟨"departments/"
        ++ replace_special_char
            ("members-" ++ toString (resp.departments[k]).id ++ "-"
              ++ (resp.departments[k]).name ++ ".json"), r, ?_⟩
    rw [Option.map_some', hr]
    simp [deptSubTask, hfs]

/-- C9 witness: in the one-department scenario with a successful empty
fetch and a successful write, a members file exists for slot 0. -/
theorem C9_member_file_iff_fetch_ok_witness :
    ∃ p r, (department_job (.ok deptListC9) true true
        (fun _ => .ok membersEmptyC9) fun _ => true).subResults[0]?
      = some (SubResult.written p r) :=
  (C9_member_file_iff_fetch_ok deptListC9 (fun _ => .ok membersEmptyC9)
      (fun _ => true) 0 (by decide)).mpr ⟨⟨membersEmptyC9, rfl⟩, rfl⟩

end Qywx
